import Mathlib

/-!
Shallow embedding of the go-identity-server core: the token lifecycle
manager (token-service.go) and the asynchronous provisioning pipeline
(vm-service.go).

Embedding conventions:
- A JWT token string is modelled by its parse outcome: either it is not a
  well-formed compact JWT (TokenInput.malformed), or it carries a header
  algorithm, a claims map, and one bit recording whether its HMAC signature
  verifies under the service secret (sigOK). The cryptographic MAC itself
  is abstracted into that bit.
- jwt.Parse of golang-jwt v4 is modelled by jwtParse: structural failure,
  then the keyfunc rejecting non-HMAC algorithms, then MapClaims.Valid
  (exp, iat, nbf, each optional) combined with signature verification into
  one validation error, exactly as parser.go of golang-jwt v4 does.
- Go map[string]interface de-facto claim values are JClaim; a failed Go
  type assertion such as claims["jti"].(string) on a missing or non-string
  value is a runtime panic, modelled by the panicked outcome.
- time.Now is passed explicitly as an integer Unix timestamp.
- UUIDs minted by the code (jti, task and deployment identifiers) are
  passed as explicit parameters; freshness, where a claim needs it, is a
  hypothesis.
- sync.Map is modelled as an association list with store-replaces (mapStore)
  and load (mapLoad) semantics; a goroutine is modelled as an event in an
  explicit event trace (VmEvent / runEvents).
-/

/-- A JSON claim value as it sits in jwt.MapClaims (map[string]interface).
Numbers decode to float64; the code only compares them to Unix times, so an
integer model suffices. -/
inductive JClaim where
  | str (s : String)
  | num (n : Int)
  | other
deriving DecidableEq

abbrev Claims := List (String × JClaim)

/-- First binding for a key in a claims map, mirroring Go map lookup
(keys are unique in a decoded JSON object). -/
def lookupClaim (cs : Claims) (k : String) : Option JClaim :=
  match cs with
  | [] => none
  | (k0, v0) :: rest => if k0 = k then some v0 else lookupClaim rest k

/-- The signing algorithm declared in the token header, as seen by the
keyfunc check: token.Method.(*jwt.SigningMethodHMAC). -/
inductive SigAlg where
  | hmac
  | nonHmac
deriving DecidableEq

/-- A well-formed (parseable) JWT: header algorithm, claims, and whether the
signature verifies under the service secret. -/
structure JwtToken where
  alg : SigAlg
  claims : Claims
  sigOK : Bool
deriving DecidableEq

/-- An input token string: either not parseable as a compact JWT at all, or
a well-formed token. -/
inductive TokenInput where
  | malformed
  | tok (t : JwtToken)
deriving DecidableEq

/-- The error flags accumulated by golang-jwt v4 for a parseable token:
MapClaims.Valid flags (exp, iat, nbf) plus signature verification. -/
structure ValFlags where
  expired : Bool
  iatInvalid : Bool
  nbfInvalid : Bool
  sigInvalid : Bool
deriving DecidableEq

/-- Typed failures of the token core, one per distinct error the source can
return: jwt.Parse structural failure, keyfunc rejection of a non-HMAC
algorithm, the combined claims/signature validation error, and the
"token is rejected" failure of ValidateToken. -/
inductive TokErr where
  | malformedToken
  | badAlg
  | validation (f : ValFlags)
  | revoked
deriving DecidableEq

/-- MapClaims.VerifyExpiresAt with required = false: no exp claim is fine, a
zero numeric exp is treated as absent, a non-numeric exp is invalid, and
otherwise the token is expired once now reaches exp. -/
def checkExpired (cs : Claims) (now : Int) : Bool :=
  match lookupClaim cs "exp" with
  | none => false
  | some (.num e) => if e = 0 then false else decide (now ≥ e)
  | some _ => true

/-- MapClaims.VerifyIssuedAt with required = false: invalid when now is
before a numeric iat; missing or zero iat is fine, non-numeric is invalid. -/
def checkIatInvalid (cs : Claims) (now : Int) : Bool :=
  match lookupClaim cs "iat" with
  | none => false
  | some (.num i) => if i = 0 then false else decide (now < i)
  | some _ => true

/-- MapClaims.VerifyNotBefore with required = false: invalid when now is
before a numeric nbf; missing or zero nbf is fine, non-numeric is invalid. -/
def checkNbfInvalid (cs : Claims) (now : Int) : Bool :=
  match lookupClaim cs "nbf" with
  | none => false
  | some (.num n) => if n = 0 then false else decide (now < n)
  | some _ => true

/-- jwt.Parse with the keyfunc both ValidateToken and RejectToken pass:
structural decode, then the keyfunc (which rejects any non-HMAC signing
method), then claims validation and signature verification combined into a
single validation error, as in ParseWithClaims of golang-jwt v4. On success
the returned token has Valid = true. -/
def jwtParse (inp : TokenInput) (now : Int) : Except TokErr JwtToken :=
  match inp with
  | .malformed => .error .malformedToken
  | .tok t =>
    if t.alg ≠ SigAlg.hmac then
      .error .badAlg
    else if checkExpired t.claims now || checkIatInvalid t.claims now
         || checkNbfInvalid t.claims now || !t.sigOK then
      .error (.validation
        { expired := checkExpired t.claims now
        , iatInvalid := checkIatInvalid t.claims now
        , nbfInvalid := checkNbfInvalid t.claims now
        , sigInvalid := !t.sigOK })
    else
      .ok t

/-- The User record of user-service.go. Go zero values are the defaults. -/
structure User where
  ID : String := ""
  Name : String := ""
  Password : String := ""
  FirstName : String := ""
  LastName : String := ""
  Role : String := ""
  Age : Int := 0
deriving DecidableEq

/-- The tokenService struct: the shared secret and the slice of rejected
token identifiers. -/
structure TState where
  secret : String := ""
  rejectedTokens : List String := []
deriving DecidableEq

/-- Outcome of a core token operation: a value, a typed error, or a Go
runtime panic (from a failed type assertion). -/
inductive TResult (α : Type) where
  | ok (a : α)
  | err (e : TokErr)
  | panicked
deriving DecidableEq

/-- Outcome of the rejected-list loop in ValidateToken. Each iteration
evaluates the type assertion claims["jti"].(string), so a missing or
non-string jti panics as soon as the list is non-empty. -/
inductive RejCheck where
  | passed
  | revoked
  | panicked
deriving DecidableEq

def checkRejected (rejected : List String) (cs : Claims) : RejCheck :=
  match rejected with
  | [] => .passed
  | r :: rest =>
    match lookupClaim cs "jti" with
    | some (.str j) => if r = j then .revoked else checkRejected rest cs
    | _ => .panicked

/-- GenerateToken: claims user_id, role, name from the user, exp ten minutes
(600 seconds) from now, a fresh jti; signed HS256 with the service secret,
so the signature verifies under that secret. -/
def generateToken (user : User) (now : Int) (jti : String) : JwtToken :=
  { alg := .hmac
  , claims :=
      [ ("user_id", .str user.ID)
      , ("role", .str user.Role)
      , ("name", .str user.Name)
      , ("exp", .num (now + 600))
      , ("jti", .str jti) ]
  , sigOK := true }

/-- ValidateToken: parse (signature, algorithm, claims validity), then the
rejected-jti loop, then extraction of user_id and name via Go type
assertions into a fresh User. Only ID and Name are populated; the other
User fields keep their zero values. The trailing
"return nil, invalid token" of the source is unreachable: a successful
parse always yields MapClaims with Valid = true. -/
def validateToken (s : TState) (inp : TokenInput) (now : Int) : TResult User :=
  match jwtParse inp now with
  | .error e => .err e
  | .ok t =>
    match checkRejected s.rejectedTokens t.claims with
    | .revoked => .err .revoked
    | .panicked => .panicked
    | .passed =>
      match lookupClaim t.claims "user_id" with
      | some (.str uid) =>
        match lookupClaim t.claims "name" with
        | some (.str nm) => .ok { ID := uid, Name := nm }
        | _ => .panicked
      | some _ => .panicked
      | none => .panicked

/-- Outcome of RejectToken: success carries the updated service state, a
typed error leaves the state as given (the source returns before touching
the list), and a failed jti type assertion panics. -/
inductive RejectResult where
  | ok (s : TState)
  | err (e : TokErr) (s : TState)
  | panicked
deriving DecidableEq

/-- RejectToken: parse with the same keyfunc as ValidateToken; on error
return it (state untouched); else append claims["jti"].(string) to the
rejected list. The claims-ok-and-Valid guard always holds after a
successful parse. -/
def rejectToken (s : TState) (inp : TokenInput) (now : Int) : RejectResult :=
  match jwtParse inp now with
  | .error e => .err e s
  | .ok t =>
    match lookupClaim t.claims "jti" with
    | some (.str j) => .ok { s with rejectedTokens := s.rejectedTokens ++ [j] }
    | some _ => .panicked
    | none => .panicked

/-- GetRejectedTokens: returns the slice, never an error. -/
def getRejectedTokens (s : TState) : List String × Option TokErr :=
  (s.rejectedTokens, none)

/-- The VMCreationTask record of vm-service.go. -/
structure VMCreationTask where
  TaskID : String := ""
  DeploymentID : String := ""
deriving DecidableEq

/-- The VMDeployment record of vm-service.go. -/
structure VMDeployment where
  ID : String := ""
  ResourceID : String := ""
  Status : String := ""
deriving DecidableEq

/-- The DeploymentUpdate message sent over the update channel. -/
structure DeploymentUpdate where
  DeploymentID : String := ""
  ResourceID : String := ""
deriving DecidableEq

/-- The VM record of vm-service.go. -/
structure VM where
  ID : String := ""
  Name : String := ""
  NumCPUs : Int := 0
  MemoryMB : Int := 0
deriving DecidableEq

/-- The CreateVMBody request of server.go. -/
structure CreateVMBody where
  Name : String := ""
  NumCPUs : Int := 0
  MemoryMB : Int := 0
deriving DecidableEq

/-- sync.Map.Load over an association-list model of the map. -/
def mapLoad {α : Type} (m : List (String × α)) (k : String) : Option α :=
  match m with
  | [] => none
  | (k0, v0) :: rest => if k0 = k then some v0 else mapLoad rest k

/-- sync.Map.Store: replace an existing binding or append a new one. -/
def mapStore {α : Type} (m : List (String × α)) (k : String) (v : α) :
    List (String × α) :=
  match m with
  | [] => [(k, v)]
  | (k0, v0) :: rest =>
    if k0 = k then (k, v) :: rest else (k0, v0) :: mapStore rest k v

/-- The vmService struct: tasks slice, deployments map and vms map. The
update channel is modelled by the event trace (VmEvent). -/
structure VmState where
  tasks : List VMCreationTask := []
  deployments : List (String × VMDeployment) := []
  vms : List (String × VM) := []
deriving DecidableEq

/-- createDeployment, the synchronous part: mint a deployment with the
given fresh identifier, zero-value ResourceID and status in-progress, and
store it. The goroutine it launches is a separate fabricate event. -/
def createDeployment (s : VmState) (depId : String) : VMDeployment × VmState :=
  let deployment : VMDeployment := { ID := depId, ResourceID := "", Status := "in-progress" }
  (deployment, { s with deployments := mapStore s.deployments depId deployment })

/-- What CreateVM returns: the task, the error slot of the Go signature
(the source always returns nil there), and the updated service state. -/
structure CreateVMResult where
  task : VMCreationTask
  error : Option String
  state : VmState
deriving DecidableEq

/-- CreateVM, the synchronous step: mint the task identifier, create the
deployment, link the task to it, append the task, return it with a nil
error. No field of the request body is validated. -/
def createVM (s : VmState) (createVMBody : CreateVMBody) (taskId depId : String) :
    CreateVMResult :=
  let d := createDeployment s depId
  let task : VMCreationTask := { TaskID := taskId, DeploymentID := d.1.ID }
  { task := task
  , error := none
  , state := { d.2 with tasks := d.2.tasks ++ [task] } }

/-- simulateVMCreation: fabricate a VM from the body with a fresh resource
identifier, store it, and produce the DeploymentUpdate it sends on the
update channel. -/
def simulateVMCreation (s : VmState) (deploymentID : String)
    (createVMBody : CreateVMBody) (vmId : String) : VmState × DeploymentUpdate :=
  let vm : VM := { ID := vmId, Name := createVMBody.Name,
                   NumCPUs := createVMBody.NumCPUs, MemoryMB := createVMBody.MemoryMB }
  ({ s with vms := mapStore s.vms vm.ID vm },
   { DeploymentID := deploymentID, ResourceID := vm.ID })

/-- One iteration of the UpdateDeploymentStatus reconciliation loop: look
up the named deployment; if absent drop the update; otherwise set its
status to created and store it back. The source writes only the Status
field; the ResourceID of the update is not copied. -/
def processUpdate (s : VmState) (update : DeploymentUpdate) : VmState :=
  match mapLoad s.deployments update.DeploymentID with
  | none => s
  | some deployment =>
    { s with deployments :=
        mapStore s.deployments update.DeploymentID { deployment with Status := "created" } }

/-- An event of the pipeline: a synchronous CreateVM step, a background
fabrication goroutine running, or the reconciliation loop receiving one
DeploymentUpdate from the channel. -/
inductive VmEvent where
  | create (body : CreateVMBody) (taskId depId : String)
  | fabricate (depId : String) (body : CreateVMBody) (vmId : String)
  | update (u : DeploymentUpdate)
deriving DecidableEq

def applyEvent (s : VmState) (e : VmEvent) : VmState :=
  match e with
  | .create body taskId depId => (createVM s body taskId depId).state
  | .fabricate depId body vmId => (simulateVMCreation s depId body vmId).1
  | .update u => processUpdate s u

def runEvents (s : VmState) (es : List VmEvent) : VmState :=
  match es with
  | [] => s
  | e :: rest => runEvents (applyEvent s e) rest

/-- Both statuses the pipeline ever writes. -/
def goodStatus (dep : VMDeployment) : Prop :=
  dep.Status = "in-progress" ∨ dep.Status = "created"

/-- Every deployment stored in the map has one of the two pipeline
statuses. -/
def statusInv (s : VmState) : Prop :=
  ∀ d dep, mapLoad s.deployments d = some dep → goodStatus dep

/-- Whether an event is a CreateVM step reusing the given deployment
identifier (impossible in the source, where identifiers are fresh UUIDs). -/
def createsDep (e : VmEvent) (d : String) : Bool :=
  match e with
  | .create _ _ depId => depId == d
  | _ => false

/-- Whether an event writes the deployment map entry of the given
identifier: a CreateVM step minting it or an update naming it. -/
def touchesDep (e : VmEvent) (d : String) : Bool :=
  match e with
  | .create _ _ depId => depId == d
  | .update u => u.DeploymentID == d
  | .fabricate _ _ _ => false

/-- Loading after a store: the stored value at the stored key, the old map
elsewhere. -/
theorem mapLoad_mapStore {α : Type} (m : List (String × α)) (k d : String) (v : α) :
    mapLoad (mapStore m k v) d = if k = d then some v else mapLoad m d := by
  induction m with
  | nil => simp [mapStore, mapLoad]
  | cons hd tl ih =>
    obtain ⟨k0, v0⟩ := hd
    by_cases h0 : k0 = k
    · subst h0
      by_cases hkd : k0 = d <;> simp [mapStore, mapLoad, hkd]
    · rw [mapStore, if_neg h0, mapLoad, mapLoad, ih]
      by_cases h0d : k0 = d
      · subst h0d
        have hk : ¬ k = k0 := fun hk => h0 hk.symm
        simp [hk]
      · by_cases hkd : k = d <;> simp [h0d, hkd]

theorem jwtParse_ok_elim (inp : TokenInput) (now : Int) (t : JwtToken)
    (h : jwtParse inp now = .ok t) :
    inp = .tok t ∧ t.alg = SigAlg.hmac ∧ t.sigOK = true ∧
      checkExpired t.claims now = false ∧ checkIatInvalid t.claims now = false ∧
      checkNbfInvalid t.claims now = false := by
  cases inp with
  | malformed => simp [jwtParse] at h
  | tok t0 =>
    simp only [jwtParse] at h
    split_ifs at h with halg hflags <;> simp at h
    case _ =>
      subst h
      have halg2 : t0.alg = SigAlg.hmac := by simpa using halg
      have hsig : t0.sigOK = true := by
        cases hs : t0.sigOK
        · exact absurd (by simp [hs]) hflags
        · rfl
      have hexp : checkExpired t0.claims now = false := by
        cases hx : checkExpired t0.claims now
        · rfl
        · exact absurd (by simp [hx]) hflags
      have hiat : checkIatInvalid t0.claims now = false := by
        cases hx : checkIatInvalid t0.claims now
        · rfl
        · exact absurd (by simp [hx]) hflags
      have hnbf : checkNbfInvalid t0.claims now = false := by
        cases hx : checkNbfInvalid t0.claims now
        · rfl
        · exact absurd (by simp [hx]) hflags
      exact ⟨rfl, halg2, hsig, hexp, hiat, hnbf⟩

theorem jwtParse_not_revoked (inp : TokenInput) (now : Int) :
    jwtParse inp now ≠ .error .revoked := by
  cases inp with
  | malformed => simp [jwtParse]
  | tok t => simp only [jwtParse]; split_ifs <;> simp

theorem checkRejected_revoked_of_mem (rejected : List String) (cs : Claims) (j : String)
    (hj : lookupClaim cs "jti" = some (.str j)) (hmem : j ∈ rejected) :
    checkRejected rejected cs = .revoked := by
  induction rejected with
  | nil => cases hmem
  | cons r rest ih =>
    simp only [checkRejected, hj]
    by_cases hr : r = j
    · simp [hr]
    · rcases List.mem_cons.mp hmem with h | h
      · exact absurd h.symm hr
      · simp [hr, ih h]

theorem checkRejected_passed_of_not_mem (rejected : List String) (cs : Claims) (j : String)
    (hj : lookupClaim cs "jti" = some (.str j)) (hmem : j ∉ rejected) :
    checkRejected rejected cs = .passed := by
  induction rejected with
  | nil => rfl
  | cons r rest ih =>
    simp only [List.mem_cons, not_or] at hmem
    obtain ⟨h1, h2⟩ := hmem
    simp only [checkRejected, hj]
    rw [if_neg fun h => h1 h.symm]
    exact ih h2

theorem lookupClaim_generateToken_user_id (u : User) (now : Int) (jti : String) :
    lookupClaim (generateToken u now jti).claims "user_id" = some (.str u.ID) := rfl

theorem lookupClaim_generateToken_name (u : User) (now : Int) (jti : String) :
    lookupClaim (generateToken u now jti).claims "name" = some (.str u.Name) := rfl

theorem lookupClaim_generateToken_exp (u : User) (now : Int) (jti : String) :
    lookupClaim (generateToken u now jti).claims "exp" = some (.num (now + 600)) := rfl

theorem lookupClaim_generateToken_jti (u : User) (now : Int) (jti : String) :
    lookupClaim (generateToken u now jti).claims "jti" = some (.str jti) := rfl

theorem lookupClaim_generateToken_iat (u : User) (now : Int) (jti : String) :
    lookupClaim (generateToken u now jti).claims "iat" = none := rfl

theorem lookupClaim_generateToken_nbf (u : User) (now : Int) (jti : String) :
    lookupClaim (generateToken u now jti).claims "nbf" = none := rfl

theorem checkExpired_generateToken (u : User) (nowIss nowVer : Int) (jti : String)
    (h : nowVer < nowIss + 600) :
    checkExpired (generateToken u nowIss jti).claims nowVer = false := by
  show (if nowIss + 600 = 0 then false else decide (nowVer ≥ nowIss + 600)) = false
  split_ifs with h0
  · rfl
  · simp only [decide_eq_false_iff_not, not_le]
    exact h

/-- A parseable token with the expected algorithm, a verifying signature and
valid claims parses successfully. -/
theorem jwtParse_tok_ok (t : JwtToken) (now : Int)
    (halg : t.alg = SigAlg.hmac) (hsig : t.sigOK = true)
    (hexp : checkExpired t.claims now = false)
    (hiat : checkIatInvalid t.claims now = false)
    (hnbf : checkNbfInvalid t.claims now = false) :
    jwtParse (.tok t) now = .ok t := by
  simp [jwtParse, halg, hsig, hexp, hiat, hnbf]

theorem jwtParse_generateToken (u : User) (nowIss nowVer : Int) (jti : String)
    (h : nowVer < nowIss + 600) :
    jwtParse (.tok (generateToken u nowIss jti)) nowVer
      = .ok (generateToken u nowIss jti) := by
  apply jwtParse_tok_ok
  · rfl
  · rfl
  · exact checkExpired_generateToken u nowIss nowVer jti h
  · rfl
  · rfl

/-- A successful parse together with a string jti that sits on the rejected
list makes ValidateToken return the rejected error. -/
theorem validateToken_eq_revoked (s : TState) (inp : TokenInput) (now : Int)
    (t : JwtToken) (j : String)
    (hp : jwtParse inp now = .ok t)
    (hj : lookupClaim t.claims "jti" = some (.str j))
    (hmem : j ∈ s.rejectedTokens) :
    validateToken s inp now = .err .revoked := by
  unfold validateToken
  rw [hp]
  simp only [checkRejected_revoked_of_mem s.rejectedTokens t.claims j hj hmem]

/-- A successful parse with a string jti off the rejected list and string
user_id and name claims makes ValidateToken return the embedded identity. -/
theorem validateToken_eq_ok (s : TState) (inp : TokenInput) (now : Int)
    (t : JwtToken) (j uid nm : String)
    (hp : jwtParse inp now = .ok t)
    (hj : lookupClaim t.claims "jti" = some (.str j))
    (hmem : j ∉ s.rejectedTokens)
    (hu : lookupClaim t.claims "user_id" = some (.str uid))
    (hn : lookupClaim t.claims "name" = some (.str nm)) :
    validateToken s inp now = .ok { ID := uid, Name := nm } := by
  unfold validateToken
  rw [hp]
  simp only [checkRejected_passed_of_not_mem s.rejectedTokens t.claims j hj hmem, hu, hn]

/-- A successful parse with a string jti makes RejectToken append that jti
and succeed. -/
theorem rejectToken_eq_ok (s : TState) (inp : TokenInput) (now : Int)
    (t : JwtToken) (j : String)
    (hp : jwtParse inp now = .ok t)
    (hj : lookupClaim t.claims "jti" = some (.str j)) :
    rejectToken s inp now
      = .ok { s with rejectedTokens := s.rejectedTokens ++ [j] } := by
  unfold rejectToken
  rw [hp]
  simp only [hj]

/-- Claim C2, counterexample: issue a token for a user whose role is admin
and verify it immediately; ValidateToken succeeds but the returned user
carries an empty role, not the role embedded in the claims, so the
identity fields returned are not all equal to those embedded at issuance. -/
theorem validateToken_drops_role_counterexample :
    validateToken { secret := "secret", rejectedTokens := [] }
        (.tok (generateToken { ID := "u1", Name := "alice", Role := "admin" } 0 "j1")) 60
      = .ok { ID := "u1", Name := "alice" } ∧
    ({ ID := "u1", Name := "alice" } : User).Role
      ≠ ({ ID := "u1", Name := "alice", Role := "admin" } : User).Role := by
  constructor
  · decide
  · decide

/-- Claim C2, amended: verifying a freshly issued, unexpired, unrevoked
token succeeds and returns the user ID and name embedded at issuance; the
role, although embedded in the claims, is not copied into the returned
user, whose Role field is the empty string. -/
theorem validateToken_generateToken_id_name
    (u : User) (s : TState) (nowIss nowVer : Int) (jti : String)
    (hexp : nowVer < nowIss + 600)
    (hrev : jti ∉ s.rejectedTokens) :
    validateToken s (.tok (generateToken u nowIss jti)) nowVer
      = .ok { ID := u.ID, Name := u.Name, Role := "" } :=
  validateToken_eq_ok s _ nowVer (generateToken u nowIss jti) jti u.ID u.Name
    (jwtParse_generateToken u nowIss nowVer jti hexp)
    (lookupClaim_generateToken_jti u nowIss jti) hrev
    (lookupClaim_generateToken_user_id u nowIss jti)
    (lookupClaim_generateToken_name u nowIss jti)

/-- Witness for the amended C2 theorem at a concrete user and clock. -/
theorem validateToken_generateToken_id_name_witness :
    validateToken { secret := "secret", rejectedTokens := [] }
        (.tok (generateToken { ID := "u1", Name := "alice", Role := "admin" } 0 "j1")) 60
      = .ok { ID := "u1", Name := "alice", Role := "" } :=
  validateToken_generateToken_id_name
    { ID := "u1", Name := "alice", Role := "admin" }
    { secret := "secret", rejectedTokens := [] } 0 60 "j1"
    (by decide) (by decide)

/-- Claim C3: the claim fails on the code. A correctly signed, unexpired
token whose claims lack a string jti makes ValidateToken panic through the
type assertion in the rejected-list loop as soon as one token has been
rejected; with an empty rejected list the same token panics at the user_id
type assertion; RejectToken panics on the jti assertion as well. -/
theorem validateToken_panics_on_bad_claims :
    validateToken { secret := "secret", rejectedTokens := ["x"] }
        (.tok { alg := .hmac, claims := [("exp", .num 9999)], sigOK := true }) 0
      = .panicked ∧
    validateToken { secret := "secret", rejectedTokens := [] }
        (.tok { alg := .hmac, claims := [("exp", .num 9999)], sigOK := true }) 0
      = .panicked ∧
    rejectToken { secret := "secret", rejectedTokens := [] }
        (.tok { alg := .hmac, claims := [("exp", .num 9999)], sigOK := true }) 0
      = .panicked := by
  refine ⟨by decide, by decide, by decide⟩

/-- Claim C4: revoking an authentic token (parseable at both call times,
with a string jti as every issued token has) twice produces no error and
the revocation list after the second call has exactly the membership it
had after the first. -/
theorem rejectToken_idempotent_membership
    (s : TState) (inp : TokenInput) (now1 now2 : Int) (t : JwtToken) (j : String)
    (hp1 : jwtParse inp now1 = .ok t)
    (hp2 : jwtParse inp now2 = .ok t)
    (hj : lookupClaim t.claims "jti" = some (.str j)) :
    ∃ s1 s2 : TState,
      rejectToken s inp now1 = .ok s1 ∧
      rejectToken s1 inp now2 = .ok s2 ∧
      ∀ x : String, x ∈ s2.rejectedTokens ↔ x ∈ s1.rejectedTokens := by
  refine ⟨{ s with rejectedTokens := s.rejectedTokens ++ [j] },
          { s with rejectedTokens := (s.rejectedTokens ++ [j]) ++ [j] },
          rejectToken_eq_ok s inp now1 t j hp1 hj,
          rejectToken_eq_ok _ inp now2 t j hp2 hj, ?_⟩
  intro x
  simp only [List.mem_append, List.mem_singleton]
  tauto

/-- Witness for C4 at a concrete token and state. -/
theorem rejectToken_idempotent_membership_witness :
    ∃ s1 s2 : TState,
      rejectToken { secret := "secret", rejectedTokens := [] }
          (.tok (generateToken { ID := "u1", Name := "alice" } 0 "j1")) 5 = .ok s1 ∧
      rejectToken s1 (.tok (generateToken { ID := "u1", Name := "alice" } 0 "j1")) 5 = .ok s2 ∧
      ∀ x : String, x ∈ s2.rejectedTokens ↔ x ∈ s1.rejectedTokens :=
  rejectToken_idempotent_membership
    { secret := "secret", rejectedTokens := [] }
    (.tok (generateToken { ID := "u1", Name := "alice" } 0 "j1")) 5 5
    (generateToken { ID := "u1", Name := "alice" } 0 "j1") "j1"
    rfl rfl rfl

/-- Claim C5: ValidateToken classifies a token as revoked only if the token
is well formed, declares the expected HMAC algorithm, its signature
verifies under the shared secret, and it is unexpired; malformed, forged or
expired tokens never reach the revocation check. -/
theorem validateToken_revoked_implies_authentic_unexpired
    (s : TState) (inp : TokenInput) (now : Int)
    (h : validateToken s inp now = .err .revoked) :
    ∃ t : JwtToken, inp = .tok t ∧ t.alg = SigAlg.hmac ∧ t.sigOK = true ∧
      checkExpired t.claims now = false := by
  unfold validateToken at h
  cases hp : jwtParse inp now with
  | error e =>
    rw [hp] at h
    simp at h
    exact absurd (h ▸ hp) (jwtParse_not_revoked inp now)
  | ok t =>
    obtain ⟨h1, h2, h3, h4, _, _⟩ := jwtParse_ok_elim inp now t hp
    exact ⟨t, h1, h2, h3, h4⟩

/-- Witness for C5: a concrete revoked verification, necessarily on an
authentic unexpired token. -/
theorem validateToken_revoked_witness :
    ∃ t : JwtToken,
      TokenInput.tok { alg := .hmac, claims := [("jti", .str "j1")], sigOK := true }
        = .tok t ∧
      t.alg = SigAlg.hmac ∧ t.sigOK = true ∧ checkExpired t.claims 0 = false :=
  validateToken_revoked_implies_authentic_unexpired
    { secret := "secret", rejectedTokens := ["j1"] }
    (.tok { alg := .hmac, claims := [("jti", .str "j1")], sigOK := true }) 0
    (by decide)

/-- Successful RejectToken decomposed: the token parsed, its jti claim is a
string, and exactly that jti was appended to the rejected list. -/
theorem rejectToken_ok_elim (s s2 : TState) (inp : TokenInput) (now : Int)
    (h : rejectToken s inp now = .ok s2) :
    ∃ t j, jwtParse inp now = .ok t ∧ lookupClaim t.claims "jti" = some (.str j) ∧
      s2 = { s with rejectedTokens := s.rejectedTokens ++ [j] } := by
  unfold rejectToken at h
  split at h
  · simp at h
  · rename_i t heq
    split at h
    · rename_i j hj
      refine ⟨t, j, heq, hj, ?_⟩
      simpa using h.symm
    · simp at h
    · simp at h

/-- Claim C6: a token that verified successfully, once revoked (RejectToken
returning success), fails any later verification that happens while the
token still parses (unexpired), and it fails precisely with the revoked
error, not a malformed or signature failure. -/
theorem validateToken_after_rejectToken_revoked
    (s s2 : TState) (inp : TokenInput) (now1 now2 now3 : Int) (u : User) (t : JwtToken)
    (hv : validateToken s inp now1 = .ok u)
    (hr : rejectToken s inp now2 = .ok s2)
    (hp : jwtParse inp now3 = .ok t) :
    validateToken s2 inp now3 = .err .revoked := by
  obtain ⟨t2, j, hp2, hj2, hs2⟩ := rejectToken_ok_elim s s2 inp now2 hr
  have ht : t2 = t := by
    have e2 := (jwtParse_ok_elim inp now2 t2 hp2).1
    have e3 := (jwtParse_ok_elim inp now3 t hp).1
    rw [e2] at e3
    simpa using e3
  subst ht
  have hmem : j ∈ s2.rejectedTokens := by
    rw [hs2]
    simp
  exact validateToken_eq_revoked s2 inp now3 t2 j hp hj2 hmem

/-- Witness for C6: verify, revoke, verify again on one concrete token. -/
theorem validateToken_after_rejectToken_revoked_witness :
    validateToken { secret := "secret", rejectedTokens := ["j1"] }
        (.tok (generateToken { ID := "u1", Name := "alice", Role := "admin" } 0 "j1")) 5
      = .err .revoked :=
  validateToken_after_rejectToken_revoked
    { secret := "secret", rejectedTokens := [] }
    { secret := "secret", rejectedTokens := ["j1"] }
    (.tok (generateToken { ID := "u1", Name := "alice", Role := "admin" } 0 "j1"))
    5 5 5 { ID := "u1", Name := "alice" }
    (generateToken { ID := "u1", Name := "alice", Role := "admin" } 0 "j1")
    (by decide) (by decide) rfl

/-- Claim C10: whenever jwt.Parse fails on the input (malformed token,
unexpected signing algorithm, bad signature, or invalid claims such as an
expired exp), RejectToken returns that error and the service state, in
particular the rejected-token list, is exactly the state it was given. -/
theorem rejectToken_error_preserves_state
    (s : TState) (inp : TokenInput) (now : Int) (e : TokErr)
    (h : jwtParse inp now = .error e) :
    rejectToken s inp now = .err e s := by
  unfold rejectToken
  rw [h]

/-- Witness for C10: an authentic but expired token (valid signature, HMAC
algorithm, exp in the past) cannot be revoked and its jti is not recorded:
the state comes back unchanged with the empty rejected list. -/
theorem rejectToken_error_preserves_state_witness :
    rejectToken { secret := "secret", rejectedTokens := [] }
        (.tok { alg := .hmac, claims := [("exp", .num 10), ("jti", .str "j1")], sigOK := true }) 100
      = .err (.validation
          { expired := true, iatInvalid := false, nbfInvalid := false, sigInvalid := false })
          { secret := "secret", rejectedTokens := [] } :=
  rejectToken_error_preserves_state
    { secret := "secret", rejectedTokens := [] }
    (.tok { alg := .hmac, claims := [("exp", .num 10), ("jti", .str "j1")], sigOK := true }) 100
    (.validation { expired := true, iatInvalid := false, nbfInvalid := false, sigInvalid := false })
    rfl

/-- The deployments map after a CreateVM step: the minted in-progress
deployment is stored under its identifier. -/
theorem deployments_applyEvent_create (s : VmState) (body : CreateVMBody)
    (taskId depId : String) :
    (applyEvent s (.create body taskId depId)).deployments
      = mapStore s.deployments depId { ID := depId, ResourceID := "", Status := "in-progress" } :=
  rfl

/-- A fabrication goroutine does not touch the deployments map. -/
theorem deployments_applyEvent_fabricate (s : VmState) (depId : String)
    (body : CreateVMBody) (vmId : String) :
    (applyEvent s (.fabricate depId body vmId)).deployments = s.deployments :=
  rfl

/-- Receiving an update is exactly one processUpdate step. -/
theorem applyEvent_update (s : VmState) (u : DeploymentUpdate) :
    applyEvent s (.update u) = processUpdate s u :=
  rfl

/-- Processing an update for an absent deployment drops it: no state
change. -/
theorem processUpdate_absent (s : VmState) (u : DeploymentUpdate)
    (h : mapLoad s.deployments u.DeploymentID = none) :
    processUpdate s u = s := by
  unfold processUpdate
  rw [h]

/-- Processing an update for a present deployment stores it back with
status created and every other field unchanged. -/
theorem processUpdate_present (s : VmState) (u : DeploymentUpdate) (dep : VMDeployment)
    (h : mapLoad s.deployments u.DeploymentID = some dep) :
    processUpdate s u
      = { s with deployments :=
            mapStore s.deployments u.DeploymentID { dep with Status := "created" } } := by
  unfold processUpdate
  rw [h]

/-- One pipeline event keeps every stored deployment status in the
two-value set. -/
theorem statusInv_applyEvent (s : VmState) (e : VmEvent) (h : statusInv s) :
    statusInv (applyEvent s e) := by
  cases e with
  | create body taskId depId =>
    intro d dep hd
    rw [deployments_applyEvent_create, mapLoad_mapStore] at hd
    split_ifs at hd with hk
    · cases hd
      exact Or.inl rfl
    · exact h d dep hd
  | fabricate depId body vmId =>
    intro d dep hd
    rw [deployments_applyEvent_fabricate] at hd
    exact h d dep hd
  | update u =>
    intro d dep hd
    rw [applyEvent_update] at hd
    cases hu : mapLoad s.deployments u.DeploymentID with
    | none => rw [processUpdate_absent s u hu] at hd; exact h d dep hd
    | some dep0 =>
      rw [processUpdate_present s u dep0 hu] at hd
      simp only at hd
      rw [mapLoad_mapStore] at hd
      split_ifs at hd with hk
      · cases hd
        exact Or.inr rfl
      · exact h d dep hd

/-- One pipeline event never removes a deployment from the map. -/
theorem mapLoad_isSome_applyEvent (s : VmState) (e : VmEvent) (d : String)
    (h : (mapLoad s.deployments d).isSome) :
    (mapLoad (applyEvent s e).deployments d).isSome := by
  cases e with
  | create body taskId depId =>
    rw [deployments_applyEvent_create, mapLoad_mapStore]
    split_ifs
    · simp
    · exact h
  | fabricate depId body vmId =>
    rw [deployments_applyEvent_fabricate]
    exact h
  | update u =>
    rw [applyEvent_update]
    cases hu : mapLoad s.deployments u.DeploymentID with
    | none => rw [processUpdate_absent s u hu]; exact h
    | some dep0 =>
      rw [processUpdate_present s u dep0 hu]
      simp only
      rw [mapLoad_mapStore]
      split_ifs
      · simp
      · exact h

/-- A deployment already in status created keeps its exact record across
any event that is not a CreateVM step reusing its identifier. -/
theorem created_preserved_applyEvent (s : VmState) (e : VmEvent) (d : String)
    (dep : VMDeployment)
    (hload : mapLoad s.deployments d = some dep) (hst : dep.Status = "created")
    (hnc : createsDep e d = false) :
    mapLoad (applyEvent s e).deployments d = some dep := by
  cases e with
  | create body taskId depId =>
    have hne : ¬ depId = d := by simpa [createsDep] using hnc
    rw [deployments_applyEvent_create, mapLoad_mapStore, if_neg hne]
    exact hload
  | fabricate depId body vmId =>
    rw [deployments_applyEvent_fabricate]
    exact hload
  | update u =>
    rw [applyEvent_update]
    by_cases hud : u.DeploymentID = d
    · rw [processUpdate_present s u dep (hud ▸ hload)]
      simp only
      rw [mapLoad_mapStore, if_pos hud]
      cases dep
      simp only [VMDeployment.mk.injEq] at hst ⊢
      simp_all
    · cases hu : mapLoad s.deployments u.DeploymentID with
      | none => rw [processUpdate_absent s u hu]; exact hload
      | some dep0 =>
        rw [processUpdate_present s u dep0 hu]
        simp only
        rw [mapLoad_mapStore, if_neg hud]
        exact hload

/-- Any stored deployment keeps its exact record across an event that does
not write its map entry. -/
theorem untouched_preserved_applyEvent (s : VmState) (e : VmEvent) (d : String)
    (dep : VMDeployment)
    (hload : mapLoad s.deployments d = some dep)
    (hnt : touchesDep e d = false) :
    mapLoad (applyEvent s e).deployments d = some dep := by
  cases e with
  | create body taskId depId =>
    have hne : ¬ depId = d := by simpa [touchesDep] using hnt
    rw [deployments_applyEvent_create, mapLoad_mapStore, if_neg hne]
    exact hload
  | fabricate depId body vmId =>
    rw [deployments_applyEvent_fabricate]
    exact hload
  | update u =>
    rw [applyEvent_update]
    have hud : ¬ u.DeploymentID = d := by simpa [touchesDep] using hnt
    cases hu : mapLoad s.deployments u.DeploymentID with
    | none => rw [processUpdate_absent s u hu]; exact hload
    | some dep0 =>
      rw [processUpdate_present s u dep0 hu]
      simp only
      rw [mapLoad_mapStore, if_neg hud]
      exact hload

theorem statusInv_runEvents (s : VmState) (es : List VmEvent) (h : statusInv s) :
    statusInv (runEvents s es) := by
  induction es generalizing s with
  | nil => exact h
  | cons e rest ih => exact ih _ (statusInv_applyEvent s e h)

theorem mapLoad_isSome_runEvents (s : VmState) (es : List VmEvent) (d : String)
    (h : (mapLoad s.deployments d).isSome) :
    (mapLoad (runEvents s es).deployments d).isSome := by
  induction es generalizing s with
  | nil => exact h
  | cons e rest ih => exact ih _ (mapLoad_isSome_applyEvent s e d h)

theorem created_preserved_runEvents (s : VmState) (es : List VmEvent) (d : String)
    (dep : VMDeployment)
    (hload : mapLoad s.deployments d = some dep) (hst : dep.Status = "created")
    (hnc : ∀ e ∈ es, createsDep e d = false) :
    mapLoad (runEvents s es).deployments d = some dep := by
  induction es generalizing s with
  | nil => exact hload
  | cons e rest ih =>
    exact ih _
      (created_preserved_applyEvent s e d dep hload hst (hnc e (List.mem_cons_self e rest)))
      (fun e2 he2 => hnc e2 (List.mem_cons_of_mem e he2))

theorem untouched_preserved_runEvents (s : VmState) (es : List VmEvent) (d : String)
    (dep : VMDeployment)
    (hload : mapLoad s.deployments d = some dep)
    (hnt : ∀ e ∈ es, touchesDep e d = false) :
    mapLoad (runEvents s es).deployments d = some dep := by
  induction es generalizing s with
  | nil => exact hload
  | cons e rest ih =>
    exact ih _
      (untouched_preserved_applyEvent s e d dep hload (hnt e (List.mem_cons_self e rest)))
      (fun e2 he2 => hnt e2 (List.mem_cons_of_mem e he2))

/-- Claim C1: the claim fails on the code. Processing a Deployment Update
for a stored deployment does transition it to status created and drops the
update when the deployment is absent, but the update resource identifier
is never recorded: the reconciled deployment keeps an empty ResourceID
even though the update carried a non-empty one. -/
theorem updateDeploymentStatus_drops_resource_id :
    processUpdate
        { tasks := [],
          deployments := [("d1", { ID := "d1", ResourceID := "", Status := "in-progress" })],
          vms := [] }
        { DeploymentID := "d1", ResourceID := "vm-1" }
      = { tasks := [],
          deployments := [("d1", { ID := "d1", ResourceID := "", Status := "created" })],
          vms := [] } ∧
    processUpdate
        { tasks := [],
          deployments := [("d1", { ID := "d1", ResourceID := "", Status := "in-progress" })],
          vms := [] }
        { DeploymentID := "dX", ResourceID := "vm-1" }
      = { tasks := [],
          deployments := [("d1", { ID := "d1", ResourceID := "", Status := "in-progress" })],
          vms := [] } := by
  refine ⟨by decide, by decide⟩

/-- Claim C7: lifecycle invariant of the deployment map over any event
trace. Every stored deployment is in-progress or created; no event deletes
a deployment; processing one update for a present deployment rewrites
exactly its status to created; a created deployment keeps its record
forever (creates use fresh identifiers); an in-progress deployment whose
entry no trace event writes stays exactly in-progress. -/
theorem deployment_lifecycle_invariant :
    (∀ (s : VmState) (es : List VmEvent), statusInv s → statusInv (runEvents s es)) ∧
    (∀ (s : VmState) (es : List VmEvent) (d : String),
       (mapLoad s.deployments d).isSome → (mapLoad (runEvents s es).deployments d).isSome) ∧
    (∀ (s : VmState) (u : DeploymentUpdate) (dep : VMDeployment),
       mapLoad s.deployments u.DeploymentID = some dep →
       mapLoad (processUpdate s u).deployments u.DeploymentID
         = some { dep with Status := "created" }) ∧
    (∀ (s : VmState) (es : List VmEvent) (d : String) (dep : VMDeployment),
       mapLoad s.deployments d = some dep → dep.Status = "created" →
       (∀ e ∈ es, createsDep e d = false) →
       mapLoad (runEvents s es).deployments d = some dep) ∧
    (∀ (s : VmState) (es : List VmEvent) (d : String) (dep : VMDeployment),
       mapLoad s.deployments d = some dep →
       (∀ e ∈ es, touchesDep e d = false) →
       mapLoad (runEvents s es).deployments d = some dep) := by
  refine ⟨statusInv_runEvents, mapLoad_isSome_runEvents, ?_,
          created_preserved_runEvents, untouched_preserved_runEvents⟩
  intro s u dep h
  rw [processUpdate_present s u dep h]
  simp only
  rw [mapLoad_mapStore, if_pos rfl]

/-- Witness for C7: a concrete in-progress deployment reconciled by one
update is stored back with status created. -/
theorem deployment_lifecycle_invariant_witness :
    mapLoad
        (processUpdate
          { tasks := [],
            deployments := [("d1", { ID := "d1", ResourceID := "", Status := "in-progress" })],
            vms := [] }
          { DeploymentID := "d1", ResourceID := "v1" }).deployments "d1"
      = some { ID := "d1", ResourceID := "", Status := "created" } :=
  deployment_lifecycle_invariant.2.2.1
    { tasks := [],
      deployments := [("d1", { ID := "d1", ResourceID := "", Status := "in-progress" })],
      vms := [] }
    { DeploymentID := "d1", ResourceID := "v1" }
    { ID := "d1", ResourceID := "", Status := "in-progress" }
    (by decide)

/-- Claim C8: the synchronous step of CreateVM returns, without error, a
task whose TaskID is the freshly minted identifier and whose DeploymentID
is the minted deployment identifier; it appends exactly that task to the
task list, and it stores a deployment record with status in-progress and
empty ResourceID under that deployment identifier, observable before any
reconciliation event. -/
theorem createVM_synchronous_step
    (s : VmState) (body : CreateVMBody) (taskId depId : String)
    (hfresh : taskId ∉ s.tasks.map VMCreationTask.TaskID) :
    (createVM s body taskId depId).error = none ∧
    (createVM s body taskId depId).task
      = { TaskID := taskId, DeploymentID := depId } ∧
    (createVM s body taskId depId).state.tasks
      = s.tasks ++ [(createVM s body taskId depId).task] ∧
    mapLoad (createVM s body taskId depId).state.deployments depId
      = some { ID := depId, ResourceID := "", Status := "in-progress" } ∧
    (createVM s body taskId depId).task.TaskID ∉ s.tasks.map VMCreationTask.TaskID := by
  refine ⟨rfl, rfl, rfl, ?_, hfresh⟩
  show mapLoad (mapStore s.deployments depId
      { ID := depId, ResourceID := "", Status := "in-progress" }) depId
    = some { ID := depId, ResourceID := "", Status := "in-progress" }
  rw [mapLoad_mapStore, if_pos rfl]

/-- Witness for C8 on a concrete request and empty service state. -/
theorem createVM_synchronous_step_witness :
    (createVM { tasks := [], deployments := [], vms := [] }
        { Name := "web1", NumCPUs := 2, MemoryMB := 2048 } "t1" "d1").error = none ∧
    (createVM { tasks := [], deployments := [], vms := [] }
        { Name := "web1", NumCPUs := 2, MemoryMB := 2048 } "t1" "d1").task
      = { TaskID := "t1", DeploymentID := "d1" } ∧
    (createVM { tasks := [], deployments := [], vms := [] }
        { Name := "web1", NumCPUs := 2, MemoryMB := 2048 } "t1" "d1").state.tasks
      = [] ++ [(createVM { tasks := [], deployments := [], vms := [] }
          { Name := "web1", NumCPUs := 2, MemoryMB := 2048 } "t1" "d1").task] ∧
    mapLoad (createVM { tasks := [], deployments := [], vms := [] }
        { Name := "web1", NumCPUs := 2, MemoryMB := 2048 } "t1" "d1").state.deployments "d1"
      = some { ID := "d1", ResourceID := "", Status := "in-progress" } ∧
    (createVM { tasks := [], deployments := [], vms := [] }
        { Name := "web1", NumCPUs := 2, MemoryMB := 2048 } "t1" "d1").task.TaskID
      ∉ ([] : List VMCreationTask).map VMCreationTask.TaskID :=
  createVM_synchronous_step { tasks := [], deployments := [], vms := [] }
    { Name := "web1", NumCPUs := 2, MemoryMB := 2048 } "t1" "d1" (by decide)

/-- Claim C9, counterexample: a creation request whose name is empty is
accepted, returning a task and a nil error rather than any InvalidSpec
failure; no field of the request is validated anywhere in the source. -/
theorem createVM_accepts_empty_name :
    (createVM { tasks := [], deployments := [], vms := [] }
        { Name := "", NumCPUs := 0, MemoryMB := 0 } "t1" "d1").error = none ∧
    (createVM { tasks := [], deployments := [], vms := [] }
        { Name := "", NumCPUs := 0, MemoryMB := 0 } "t1" "d1").task
      = { TaskID := "t1", DeploymentID := "d1" } := by
  refine ⟨rfl, rfl⟩

/-- Claim C9, amended: the synchronous step of CreateVM never fails; for
every request body, including one with an empty name, it returns a nil
error and appends the new Creation Task. -/
theorem createVM_never_fails (s : VmState) (body : CreateVMBody) (taskId depId : String) :
    (createVM s body taskId depId).error = none ∧
    (createVM s body taskId depId).state.tasks
      = s.tasks ++ [(createVM s body taskId depId).task] :=
  ⟨rfl, rfl⟩
